import Mathlib

/-!
Verification development for the sync engine of the LinkedIn automation
platform (source file sync-engine.js, schema migrations/001_engagement_system.sql).

The engine is embedded shallowly: the mutable fields of the SyncEngine class
and the relevant database tables become an explicit state record that is
threaded through every operation, external HTTP calls become
environment-provided outcomes, and JavaScript exceptions become Except
values.  Database-layer operations whose implementation is not part of the
provided sources (queue fetch, queue update, keyword marking, insight
persistence) are modelled from the specification and marked as such in
their doc comments.
-/

/-- Row of the engagement_summary table (fields read by the engine). -/
structure Summary where
  connection_id : Nat
  ai_relevant : Bool
  total_engagements : Nat
  status : String
deriving DecidableEq

/-- A connection row: id, epoch seconds of the connected_on date (none when
the stored date does not parse, the JS NaN path), and the profile text used
for keyword matching. -/
structure ConnRecord where
  id : Nat
  connected_on : Option Nat
  profile_text : String
deriving DecidableEq

/-- Row of the sync_queue table. -/
structure QueueItem where
  id : Nat
  connection_id : Nat
  priority : Nat
  status : String
  attempts : Nat
  error_message : Option String
  next_retry : Option Nat
  created_at : Nat
  updated_at : Nat
deriving DecidableEq

/-- Row of the tracked_posts table (fields the engine uses). -/
structure TrackedPost where
  post_id : String
  posted_at : Nat
  sync_priority : Nat
deriving DecidableEq

/-- A post as returned by the external posts endpoint. -/
structure RawPost where
  id : String
  commentary : String
  created : Option Nat
deriving DecidableEq

/-- An engagement actor as returned by the external socialActions endpoint. -/
structure Actor where
  actor : String
  reactionType : Option String
  created : Option Nat
deriving DecidableEq

/-- Row of the engagement_events table (fields the engine writes). -/
structure EngEvent where
  connection_id : Nat
  post_id : String
  event_type : String
  happened_at : Nat
deriving DecidableEq

/-- Row of the sync_sessions table (fields the engine reads on resume). -/
structure Session where
  session_date : String
  status : String
  api_calls_used : Nat
  api_calls_limit : Nat
deriving DecidableEq

/-- Key of a network_insights row; the payload is irrelevant to the claims. -/
structure InsightRow where
  user_sub : String
  insight_date : String
  insight_type : String
deriving DecidableEq

/-- JavaScript `v || dflt` on an optional number: none and 0 are falsy. -/
def jsOrDefault (v : Option Nat) (dflt : Nat) : Nat :=
  match v with
  | some t => if t == 0 then dflt else t
  | none => dflt

/-- JavaScript truthiness of an optional string: none and the empty string
are falsy. -/
def jsTruthy (v : Option String) : Bool :=
  match v with
  | some s => !(s == "")
  | none => false

/-- The whole mutable state visible to one engine run: the SyncEngine
instance fields (usableLimit, batchSize, apiCallsUsed) plus the database
tables the run reads and writes.  budgetTrace records the value of
apiCallsUsed after every consumeAPI, externalCalls records each external
HTTP request together with the value the canAfford(1) guard had at the
moment the request was issued, and completedOrder records the connection
ids of queue items marked completed, in order; these three fields are pure
observation traces used to state theorems. -/
structure SyncState where
  usableLimit : Nat
  batchSize : Nat
  apiCallsUsed : Nat
  budgetTrace : List Nat
  externalCalls : List (String × Bool)
  queue : List QueueItem
  trackedPosts : List TrackedPost
  summaries : List Summary
  events : List EngEvent
  insights : List InsightRow
  sessionStatus : String
  sessionApiCalls : Nat
  sessionError : Option String
  sessionTotal : Nat
  sessionSynced : Nat
  pausedAt : Option Nat
  completedAt : Option Nat
  completedOrder : List Nat
deriving DecidableEq

/-- The environment of one run: clock, user identity, the stored connection
rows, the outcomes of the external HTTP requests, and the outcomes of the
database operations that can throw.  matchConn models
db.isEngagementFromConnection and keywordMatch models the keyword matcher
of db.markAIRelevantByKeywords, both absent from the provided sources. -/
structure RunEnv where
  now : Nat
  todayDate : String
  userSub : String
  hasAccessToken : Bool
  todayApiCallCount : Nat
  existingSession : Option Session
  connections : List ConnRecord
  keywordMatch : String → Bool
  postsFetch : Except String (List RawPost)
  engagementFetch : String → Except String (List Actor)
  matchConn : String → Nat → Bool
  summaryUpdateOutcome : Nat → Except String Unit
  markFail : Option String
  buildFail : Option String
  insightsFail : Option String

/-- The value returned by SyncEngine.run on success. -/
structure RunResult where
  success : Bool
  apiCallsUsed : Nat
  remaining : Int
deriving DecidableEq

/-- SyncEngine.canAfford: (this.apiCallsUsed + calls) <= this.usableLimit. -/
def canAfford (st : SyncState) (calls : Nat) : Bool :=
  decide (st.apiCallsUsed + calls ≤ st.usableLimit)

/-- SyncEngine.consumeAPI: increments apiCallsUsed and persists it onto the
session (db.updateSyncSession with api_calls_used); the new counter value is
also appended to the budget trace. -/
def consumeAPI (st : SyncState) (calls : Nat) : SyncState :=
  { st with
    apiCallsUsed := st.apiCallsUsed + calls
    budgetTrace := st.budgetTrace ++ [st.apiCallsUsed + calls]
    sessionApiCalls := st.apiCallsUsed + calls }

/-- Records that an external HTTP request was issued, together with the
value of the canAfford(1) guard at that moment. -/
def recordExternalCall (st : SyncState) (endpoint : String) : SyncState :=
  { st with externalCalls := st.externalCalls ++ [(endpoint, canAfford st 1)] }

/-- SyncEngine.initialize: looks up the session for today, creates a running
one when absent; when the found session is paused, restores apiCallsUsed
from the persisted session value; then unconditionally overwrites
apiCallsUsed with db.getTodayApiCallCount (the count of api_calls rows
recorded today). -/
def initEngine (env : RunEnv) (st : SyncState) : SyncState :=
  let st1 :=
    match env.existingSession with
    | none =>
      { st with sessionStatus := "running", sessionApiCalls := 0 }
    | some s =>
      if s.status == "paused" then
        { st with apiCallsUsed := s.api_calls_used,
                  sessionStatus := s.status, sessionApiCalls := s.api_calls_used }
      else
        { st with sessionStatus := s.status, sessionApiCalls := s.api_calls_used }
  { st1 with apiCallsUsed := env.todayApiCallCount }

/-- SyncEngine.calculatePostPriority: recency-weighted priority of a post,
computed from its age in seconds (the source divides by 86400 and compares
days; comparing seconds against 86400-multiples is the same test). -/
def calculatePostPriority (now : Nat) (post : RawPost) : Nat :=
  let ageSecs := now - (post.created).getD 0
  if ageSecs < 86400 then 100
  else if ageSecs < 7 * 86400 then 80
  else if ageSecs < 30 * 86400 then 50
  else 20

/-- Modelled from the spec: db.saveTrackedPost is not part of the provided
sources; the tracked_posts schema declares post_id UNIQUE, so saving is an
upsert keyed by post_id. -/
def saveTrackedPost (posts : List TrackedPost) (p : TrackedPost) : List TrackedPost :=
  if posts.any (fun q => q.post_id == p.post_id) then
    posts.map (fun q => if q.post_id == p.post_id then p else q)
  else posts ++ [p]

/-- SyncEngine.syncRecentPosts: skipped when canAfford(1) is false; issues
the posts request, and on failure logs and swallows (no budget consumed,
nothing saved, no exception); on success consumes one call and upserts each
returned post as a TrackedPost. -/
def syncRecentPosts (env : RunEnv) (st : SyncState) : SyncState :=
  if canAfford st 1 then
    let st1 := recordExternalCall st "/rest/posts"
    match env.postsFetch with
    | Except.error _ => st1
    | Except.ok posts =>
      let st2 := consumeAPI st1 1
      posts.foldl
        (fun s post =>
          let tp : TrackedPost :=
            { post_id := post.id,
              posted_at := jsOrDefault post.created env.now,
              sync_priority := calculatePostPriority env.now post }
          { s with trackedPosts := saveTrackedPost s.trackedPosts tp })
        st2
  else st

/-- Modelled from the spec: db.markAIRelevantByKeywords is not part of the
provided sources; section 4.5 step 3 flags connections whose stored profile
text matches the keyword list, feeding the relevance bonus of the priority
scorer.  The match test itself is an environment parameter; a matched
connection gets ai_relevant set on its summary row, a default summary row
being created when none exists. -/
def markAIRelevantByKeywords (connections : List ConnRecord)
    (kwMatch : String → Bool) (summaries : List Summary) : List Summary :=
  connections.foldl
    (fun sums c =>
      if kwMatch c.profile_text then
        if sums.any (fun s => s.connection_id == c.id) then
          sums.map (fun s =>
            if s.connection_id == c.id then { s with ai_relevant := true } else s)
        else
          sums ++ [{ connection_id := c.id, ai_relevant := true,
                     total_engagements := 0, status := "unknown" }]
      else sums)
    summaries

/-- SyncEngine.markAIRelevantConnections (step 2): zero-cost relevance pass. -/
def markAIRelevantConnections (env : RunEnv) (st : SyncState) : SyncState :=
  { st with summaries := markAIRelevantByKeywords env.connections env.keywordMatch st.summaries }

/-- Recency part of SyncEngine.calculateConnectionPriority: +30 when the
connection is under 7 days old, +20 under 30, +10 under 90, else +0.  An
unparseable date (none) makes every JS comparison false, giving +0; a
future date gives a negative JS age, which like Nat truncation to 0
satisfies the under-7-days test. -/
def recencyBonus (now : Nat) (connected_on : Option Nat) : Nat :=
  match connected_on with
  | none => 0
  | some t =>
    let age := now - t
    if age < 7 * 86400 then 30
    else if age < 30 * 86400 then 20
    else if age < 90 * 86400 then 10
    else 0

/-- Score chain of SyncEngine.calculateConnectionPriority, given the summary
row found for the connection (none when the table has no row). -/
def priorityFromSignals (now : Nat) (summary : Option Summary)
    (connected_on : Option Nat) : Nat :=
  let score0 := 0
  let score1 := if (summary.map (fun s => s.ai_relevant)).getD false
                then score0 + 50 else score0
  let score2 := score1 + recencyBonus now connected_on
  let score3 := if (summary.map (fun s => s.total_engagements)).getD 0 > 0
                then score2 + 20 else score2
  let score4 := if (summary.map (fun s => s.status)).getD "unknown" == "active"
                then score3 + 15 else score3
  min 100 score4

/-- SyncEngine.calculateConnectionPriority: looks up the engagement summary
of the connection and applies the additive score. -/
def calculateConnectionPriority (now : Nat) (summaries : List Summary)
    (conn : ConnRecord) : Nat :=
  priorityFromSignals now
    (summaries.find? (fun s => s.connection_id == conn.id)) conn.connected_on

/-- The additive formula as the specification words it: +50 when relevant,
plus the recency bonus, +20 when any engagement is recorded, +15 when the
summary status is active, clamped to 100. -/
def prioritySpecFormula (relevant : Bool) (recency : Nat)
    (hasEngagement : Bool) (active : Bool) : Nat :=
  min 100 ((if relevant then 50 else 0) + recency
    + (if hasEngagement then 20 else 0) + (if active then 15 else 0))

/-- Modelled from the spec: db.addToSyncQueue is not part of the provided
sources; section 4.4 rebuild upserts a queue item per connection (insert if
absent, update priority and status if present and not currently
processing).  The schema declares connection_id UNIQUE on sync_queue.  New
rows get increasing ids; created_at is modelled as the insertion index,
which realises the stable tie-break order of section 4.4 (the source
index idx_sync_queue_priority orders by priority DESC, created_at). -/
def addToSyncQueue (queue : List QueueItem) (connId priority now : Nat) : List QueueItem :=
  match queue.find? (fun q => q.connection_id == connId) with
  | some item =>
    if item.status == "processing" then queue
    else
      queue.map (fun q =>
        if q.connection_id == connId then
          { q with priority := priority, status := "pending", updated_at := now }
        else q)
  | none =>
    queue ++ [{ id := queue.length + 1, connection_id := connId,
                priority := priority, status := "pending", attempts := 0,
                error_message := none, next_retry := none,
                created_at := queue.length + 1, updated_at := now }]

/-- SyncEngine.buildSyncQueue (step 3): computes a priority for every known
connection (at most 10000, the limit passed to db.getAllConnections),
upserts a queue item for each, and records the total on the session. -/
def buildSyncQueue (env : RunEnv) (st : SyncState) : SyncState :=
  let conns := env.connections.take 10000
  let st1 := conns.foldl
    (fun s c =>
      let p := calculateConnectionPriority env.now s.summaries c
      { s with queue := addToSyncQueue s.queue c.id p env.now })
    st
  { st1 with sessionTotal := conns.length }

/-- Modelled from the spec: eligibility of a queue item for the next batch,
section 4.4 — status pending, or status failed with next_retry elapsed. -/
def eligibleItem (now : Nat) (q : QueueItem) : Bool :=
  q.status == "pending" ||
    (q.status == "failed" &&
      (match q.next_retry with
       | some t => decide (t ≤ now)
       | none => true))

/-- Batch order of section 4.4: priority descending, then created_at
ascending as the stable tie-break. -/
def itemBefore (a b : QueueItem) : Bool :=
  decide (b.priority < a.priority) ||
    (a.priority == b.priority && decide (a.created_at ≤ b.created_at))

/-- Insertion into a list sorted by the given order test. -/
def insertOrdered {α : Type} (le : α → α → Bool) (x : α) : List α → List α
  | [] => [x]
  | y :: ys => if le y x then y :: insertOrdered le x ys else x :: y :: ys

/-- Insertion sort by the given order test. -/
def sortOrdered {α : Type} (le : α → α → Bool) : List α → List α
  | [] => []
  | x :: xs => insertOrdered le x (sortOrdered le xs)

/-- Modelled from the spec: db.getNextSyncBatch is not part of the provided
sources; section 4.4 nextBatch returns up to n eligible items ordered by
priority descending with the stable created-order tie-break. -/
def getNextSyncBatch (queue : List QueueItem) (now n : Nat) : List QueueItem :=
  (sortOrdered itemBefore (queue.filter (eligibleItem now))).take n

/-- Modelled from the spec: db.getTrackedPosts is not part of the provided
sources; the engine samples the n most recently posted tracked posts (the
source calls it with n = 5), per the bounded window of section 4.6 and the
posted_at DESC index of the schema. -/
def getTrackedPosts (posts : List TrackedPost) (n : Nat) : List TrackedPost :=
  (sortOrdered (fun a b => decide (b.posted_at ≤ a.posted_at)) posts).take n

/-- SyncEngine.fetchPostEngagement: issues the socialActions request and
returns its elements; on any error it logs and returns the empty list
instead of throwing. -/
def fetchPostEngagement (env : RunEnv) (st : SyncState) (postId : String) :
    SyncState × List Actor :=
  let st1 := recordExternalCall st "/rest/socialActions"
  match env.engagementFetch postId with
  | Except.ok es => (st1, es)
  | Except.error _ => (st1, [])

/-- The EngagementEvent row the engine writes for a matched actor:
event_type is like when reactionType is truthy, else comment; happened_at
falls back to now when the event carries no timestamp. -/
def mkEngEvent (now connId : Nat) (postId : String) (ev : Actor) : EngEvent :=
  { connection_id := connId, post_id := postId,
    event_type := if jsTruthy ev.reactionType then "like" else "comment",
    happened_at := jsOrDefault ev.created now }

/-- SyncEngine.processEngagementForConnection: returns unchanged when the
connection row does not exist; otherwise persists exactly the events whose
actor matches the connection (db.isEngagementFromConnection is modelled by
the environment predicate matchConn). -/
def processEngagementForConnection (env : RunEnv) (st : SyncState)
    (connId : Nat) (postId : String) (engagementData : List Actor) : SyncState :=
  match env.connections.find? (fun c => c.id == connId) with
  | none => st
  | some _ =>
    engagementData.foldl
      (fun s ev =>
        if env.matchConn ev.actor connId then
          { s with events := s.events ++ [mkEngEvent env.now connId postId ev] }
        else s)
      st

/-- Modelled from the spec: the summary recomputation performed by
db.updateEngagementSummary (absent from the provided sources), section 4.6 —
counts and a coarse status classification recomputed from the full set of
EngagementEvent rows of the connection; the relevance flag of an existing
row is kept. -/
def recomputeSummary (now : Nat) (events : List EngEvent)
    (summaries : List Summary) (connId : Nat) : List Summary :=
  let evs := events.filter (fun e => e.connection_id == connId)
  let last7 := evs.filter (fun e => now - e.happened_at < 7 * 86400)
  let last30 := evs.filter (fun e => now - e.happened_at < 30 * 86400)
  let newStatus :=
    if evs.length == 0 then "unknown"
    else if last7.length > 0 then "active"
    else if last30.length > 0 then "quiet"
    else "cold"
  let keepRelevant :=
    ((summaries.find? (fun s => s.connection_id == connId)).map
      (fun s => s.ai_relevant)).getD false
  let row : Summary :=
    { connection_id := connId, ai_relevant := keepRelevant,
      total_engagements := evs.length, status := newStatus }
  if summaries.any (fun s => s.connection_id == connId) then
    summaries.map (fun s => if s.connection_id == connId then row else s)
  else summaries ++ [row]

/-- Per-post loop of SyncEngine.syncConnectionEngagement: for each sampled
post, stop when canAfford(1) fails, otherwise fetch the engagement of the
post, consume one budget unit (regardless of the fetch outcome), and
process the returned events for the connection. -/
def syncPostsLoop (env : RunEnv) (connId : Nat) :
    List TrackedPost → SyncState → SyncState
  | [], st => st
  | post :: rest, st =>
    if canAfford st 1 then
      let fr := fetchPostEngagement env st post.post_id
      let st2 := consumeAPI fr.1 1
      let st3 := processEngagementForConnection env st2 connId post.post_id fr.2
      syncPostsLoop env connId rest st3
    else st

/-- SyncEngine.syncConnectionEngagement: samples the last five tracked
posts, runs the per-post loop, then updates the engagement summary of the
connection; the summary update is the database operation of this function
that can throw, its outcome is provided by the environment. -/
def syncConnectionEngagement (env : RunEnv) (st : SyncState) (connId : Nat) :
    SyncState × Except String Unit :=
  let st1 := syncPostsLoop env connId (getTrackedPosts st.trackedPosts 5) st
  match env.summaryUpdateOutcome connId with
  | Except.ok _ =>
    ({ st1 with summaries := recomputeSummary env.now st1.events st1.summaries connId },
     Except.ok ())
  | Except.error e => (st1, Except.error e)

/-- db.updateQueueItem as called on success: status completed, updated_at
now; the connection id is also appended to the completion trace. -/
def updateQueueItemCompleted (st : SyncState) (item : QueueItem) (now : Nat) : SyncState :=
  { st with
    queue := st.queue.map (fun q =>
      if q.id == item.id then { q with status := "completed", updated_at := now } else q)
    completedOrder := st.completedOrder ++ [item.connection_id] }

/-- db.updateQueueItem as called on failure: status failed, attempts set to
the fetched snapshot value plus one, the error message recorded, and
next_retry set to now plus a flat 3600-second back-off. -/
def updateQueueItemFailed (st : SyncState) (item : QueueItem) (msg : String)
    (now : Nat) : SyncState :=
  { st with
    queue := st.queue.map (fun q =>
      if q.id == item.id then
        { q with status := "failed", attempts := item.attempts + 1,
                 error_message := some msg, next_retry := some (now + 3600),
                 updated_at := now }
      else q) }

/-- Inner loop of SyncEngine.processQueue over one batch: before each item
check canAfford(2), and on failure of that check stop with hasMore = false;
otherwise sync the connection, marking the item completed on success and
failed (with the per-item error swallowed) on error.  Returns the state,
the updated processed count, and the hasMore flag. -/
def processBatchItems (env : RunEnv) :
    List QueueItem → SyncState → Nat → SyncState × Nat × Bool
  | [], st, processed => (st, processed, true)
  | item :: rest, st, processed =>
    if canAfford st 2 then
      match syncConnectionEngagement env st item.connection_id with
      | (st1, Except.ok _) =>
        processBatchItems env rest (updateQueueItemCompleted st1 item env.now) (processed + 1)
      | (st1, Except.error e) =>
        processBatchItems env rest (updateQueueItemFailed st1 item e env.now) processed
    else (st, processed, false)

/-- Outer while-loop of SyncEngine.processQueue: while hasMore and
canAfford(5), fetch the next batch; an empty batch ends the loop.  The fuel
argument bounds the number of outer iterations; every non-final iteration
removes at least one item from the eligible set (completed, or failed with
next_retry in the future), so fuel equal to the queue length plus one is
always sufficient. -/
def processQueueLoop (env : RunEnv) : Nat → SyncState → Nat → SyncState × Nat
  | 0, st, processed => (st, processed)
  | Nat.succ fuel, st, processed =>
    if canAfford st 5 then
      let batch := getNextSyncBatch st.queue env.now st.batchSize
      if batch.isEmpty then (st, processed)
      else
        match processBatchItems env batch st processed with
        | (st1, processed1, true) => processQueueLoop env fuel st1 processed1
        | (st1, processed1, false) => (st1, processed1)
    else (st, processed)

/-- SyncEngine.processQueue (step 4): drains the queue and records the
processed count on the session as connections_synced. -/
def processQueue (env : RunEnv) (st : SyncState) : SyncState :=
  match processQueueLoop env (st.queue.length + 1) st 0 with
  | (st1, processed) => { st1 with sessionSynced := processed }

/-- Modelled from the spec: db.saveInsight is not part of the provided
sources; the network_insights schema is UNIQUE on (user_sub, insight_date,
insight_type), so saving is an upsert on that key (section 4.7). -/
def saveInsight (insights : List InsightRow) (row : InsightRow) : List InsightRow :=
  if insights.any (fun r =>
      r.user_sub == row.user_sub && r.insight_date == row.insight_date &&
      r.insight_type == row.insight_type) then
    insights
  else insights ++ [row]

/-- SyncEngine.calculateInsights (step 5): computes the three report types
and persists one NetworkInsight row per (user, date, type). -/
def calculateInsights (env : RunEnv) (st : SyncState) : SyncState :=
  let i1 := saveInsight st.insights
    { user_sub := env.userSub, insight_date := env.todayDate, insight_type := "top_engagers" }
  let i2 := saveInsight i1
    { user_sub := env.userSub, insight_date := env.todayDate, insight_type := "rising_stars" }
  let i3 := saveInsight i2
    { user_sub := env.userSub, insight_date := env.todayDate, insight_type := "at_risk" }
  { st with insights := i3 }

/-- The catch-block of SyncEngine.run: persist status paused, paused_at,
the current apiCallsUsed and the error message on the session. -/
def pauseSessionUpdate (env : RunEnv) (st : SyncState) (msg : String) : SyncState :=
  { st with sessionStatus := "paused", sessionApiCalls := st.apiCallsUsed,
            sessionError := some msg, pausedAt := some env.now }

/-- SyncEngine.run: initialize, check the access token (a missing token
throws before the try-block and is not caught), then run steps 1 to 5
inside the try-block; on success mark the session completed, on any
escaping exception persist a paused session with the error message and
re-raise.  The environment fields markFail, buildFail and insightsFail
inject the possible database failures of steps 2, 3 and 5 (the per-item
failures of step 4 are swallowed inside processQueue and never escape;
syncRecentPosts swallows its own failures). -/
def run (env : RunEnv) (st0 : SyncState) : SyncState × Except String RunResult :=
  let st := initEngine env st0
  if env.hasAccessToken then
    let st1 := syncRecentPosts env st
    match env.markFail with
    | some e => (pauseSessionUpdate env st1 e, Except.error e)
    | none =>
      let st2 := markAIRelevantConnections env st1
      match env.buildFail with
      | some e => (pauseSessionUpdate env st2 e, Except.error e)
      | none =>
        let st3 := buildSyncQueue env st2
        let st4 := processQueue env st3
        match env.insightsFail with
        | some e => (pauseSessionUpdate env st4 e, Except.error e)
        | none =>
          let st5 := calculateInsights env st4
          let st6 : SyncState :=
            { st5 with
              sessionStatus := "completed"
              sessionApiCalls := st5.apiCallsUsed
              completedAt := some env.now }
          let res : RunResult :=
            { success := true
              apiCallsUsed := st6.apiCallsUsed
              remaining := (st6.usableLimit : Int) - (st6.apiCallsUsed : Int) }
          (st6, Except.ok res)
  else (st, Except.error "No access token found")

/-- Shared base state of the concrete scenarios: a fresh engine with the
usable limit 10 and the default batch size 10, empty tables. -/
def baseState : SyncState :=
  { usableLimit := 10, batchSize := 10, apiCallsUsed := 0, budgetTrace := [],
    externalCalls := [], queue := [], trackedPosts := [], summaries := [],
    events := [], insights := [], sessionStatus := "", sessionApiCalls := 0,
    sessionError := none, sessionTotal := 0, sessionSynced := 0,
    pausedAt := none, completedAt := none, completedOrder := [] }

/-- Shared base environment of the concrete scenarios: the posts endpoint
is down (its failure is swallowed by syncRecentPosts), the engagement
endpoint returns no actors, no database operation throws. -/
def baseEnv : RunEnv :=
  { now := 10000000, todayDate := "2025-10-08", userSub := "demo-user",
    hasAccessToken := true, todayApiCallCount := 0, existingSession := none,
    connections := [], keywordMatch := fun s => s == "ai",
    postsFetch := Except.error "posts endpoint unavailable",
    engagementFetch := fun _ => Except.ok [], matchConn := fun _ _ => false,
    summaryUpdateOutcome := fun _ => Except.ok (),
    markFail := none, buildFail := none, insightsFail := none }

/-- Two tracked posts, so one connection sync costs exactly two calls. -/
def twoPosts : List TrackedPost :=
  [{ post_id := "p1", posted_at := 9999900, sync_priority := 100 },
   { post_id := "p2", posted_at := 9999800, sync_priority := 100 }]

/-- The 15 connections of the end-to-end drain scenario: connections 1 and 2
are relevant, recent (10 days) and have engagement history, scoring 90; the
other 13 are relevant only, scoring 50. -/
def c5Conns : List ConnRecord :=
  [{ id := 1, connected_on := some (10000000 - 10*86400), profile_text := "ai" },
   { id := 2, connected_on := some (10000000 - 10*86400), profile_text := "ai" }] ++
  (List.range 13).map (fun i =>
    { id := i+3, connected_on := some (10000000 - 100*86400), profile_text := "ai" })

/-- Initial state of the drain scenario: budget 10, two cached posts. -/
def c5State : SyncState :=
  { baseState with
    trackedPosts := twoPosts
    summaries := [{ connection_id := 1, ai_relevant := false,
                    total_engagements := 1, status := "unknown" },
                  { connection_id := 2, ai_relevant := false,
                    total_engagements := 1, status := "unknown" }] }

/-- Environment of the drain scenario. -/
def c5Env : RunEnv :=
  { baseEnv with connections := c5Conns }

/-- Four priority-50 connections for the budget-exhaustion scenario. -/
def c1Conns : List ConnRecord :=
  (List.range 4).map (fun i =>
    { id := i+1, connected_on := some (10000000 - 100*86400), profile_text := "ai" })

/-- Initial state of the budget-exhaustion scenario: usable budget 6, two
cached posts, so only three of the four connections are affordable. -/
def c1State : SyncState :=
  { baseState with usableLimit := 6, trackedPosts := twoPosts }

/-- Environment of the budget-exhaustion scenario. -/
def c1Env : RunEnv :=
  { baseEnv with connections := c1Conns }

/-- Environment of the resume counterexample: the stored session for today
is paused with api_calls_used = 5, while seven api_calls rows are recorded
today (for example because manual actions also insert api_calls rows, or
because consumption and row count have drifted). -/
def c2Env : RunEnv :=
  { baseEnv with
    existingSession := some { session_date := "2025-10-08", status := "paused",
                              api_calls_used := 5, api_calls_limit := 450 }
    todayApiCallCount := 7 }

/-- The two-item queue of the per-item failure scenario. -/
def c7Queue : List QueueItem :=
  [{ id := 1, connection_id := 1, priority := 60, status := "pending", attempts := 0,
     error_message := none, next_retry := none, created_at := 1, updated_at := 0 },
   { id := 2, connection_id := 2, priority := 40, status := "pending", attempts := 0,
     error_message := none, next_retry := none, created_at := 2, updated_at := 0 }]

/-- Initial state of the per-item failure scenario: no tracked posts, so a
connection sync costs no calls and its outcome is decided by the summary
update. -/
def c7State : SyncState :=
  { baseState with queue := c7Queue }

/-- First run of the failure scenario at time 1000: syncing connection 1
always throws, connection 2 succeeds. -/
def c7Env1 : RunEnv :=
  { baseEnv with
    now := 1000
    summaryUpdateOutcome := fun c =>
      if c == 1 then Except.error "socket hang up" else Except.ok () }

/-- Second run of the same scenario at time 4600, when the one-hour
back-off of the first failure has elapsed. -/
def c7Env2 : RunEnv := { c7Env1 with now := 4600 }

/-- State after the first drain of the failure scenario. -/
def c7After1 : SyncState := processQueue c7Env1 c7State

/-- State after the second drain of the failure scenario. -/
def c7After2 : SyncState := processQueue c7Env2 c7After1

/-- Budget soundness of a state: the counter is within the usable limit,
every value the counter ever took after a consumption is within the usable
limit, and every external request was issued with the canAfford(1) guard
holding at the moment of issue. -/
def budgetOK (st : SyncState) : Prop :=
  st.apiCallsUsed ≤ st.usableLimit ∧
  (∀ v ∈ st.budgetTrace, v ≤ st.usableLimit) ∧
  (∀ c ∈ st.externalCalls, c.2 = true)

/-- Environment of the run-failure witness: the relevance-marking database
operation of step 2 throws. -/
def c6Env : RunEnv := { baseEnv with markFail := some "db locked" }

/-- A state whose budget is fully consumed (10 of 10). -/
def c9FullState : SyncState := { baseState with apiCallsUsed := 10 }

/-- Environment of the engagement-matching witness: one stored connection,
an engagement endpoint returning one actor, and a matcher that matches
nothing. -/
def c8Env : RunEnv :=
  { baseEnv with
    connections := [{ id := 1, connected_on := none, profile_text := "x" }] }

/-- One unmatched engagement actor. -/
def c8Actors : List Actor :=
  [{ actor := "urn:li:person:stranger", reactionType := some "LIKE", created := some 5 }]

/-- Environment of the per-post budget witness: every engagement fetch
fails (and is mapped to an empty list by fetchPostEngagement). -/
def c10Env : RunEnv :=
  { baseEnv with engagementFetch := fun _ => Except.error "timeout" }

/-- Statement abbreviation: the state with exactly the matched engagement
events appended as EngagementEvent rows. -/
def appendMatchedEvents (env : RunEnv) (st : SyncState) (connId : Nat)
    (postId : String) (evs : List Actor) : SyncState :=
  let newEvents := (evs.filter (fun ev => env.matchConn ev.actor connId)).map
    (mkEngEvent env.now connId postId)
  { st with events := st.events ++ newEvents }

/-- Unfolding of the score chain into the additive formula of the spec. -/
theorem priorityFromSignals_eq_formula (now : Nat) (summary : Option Summary)
    (connected_on : Option Nat) :
    priorityFromSignals now summary connected_on
      = prioritySpecFormula ((summary.map (fun s => s.ai_relevant)).getD false)
          (recencyBonus now connected_on)
          (decide ((summary.map (fun s => s.total_engagements)).getD 0 > 0))
          ((summary.map (fun s => s.status)).getD "unknown" == "active") := by
  unfold priorityFromSignals prioritySpecFormula
  rcases summary with _ | s
  · simp
  · simp only [Option.map_some', Option.getD_some]
    by_cases h1 : s.ai_relevant <;>
      by_cases h2 : s.total_engagements > 0 <;>
        by_cases h3 : s.status == "active" <;>
          simp [h1, h2, h3]

/-- Claim C4: for every connection, the priority score equals the sum of
+50 when flagged relevant, the recency bonus (+30 under 7 days, +20 under
30, +10 under 90, else +0), +20 when any engagement is recorded and +15
when the summary status is active, clamped to 100; the result is a natural
number at most 100 (hence in [0,100]); a connection with every signal
scores exactly 100 and a connection with no signal scores 0. -/
theorem claim_c4_priority_spec :
    (∀ (now : Nat) (summaries : List Summary) (c : ConnRecord),
        calculateConnectionPriority now summaries c
          = prioritySpecFormula
              (((summaries.find? (fun s => s.connection_id == c.id)).map
                  (fun s => s.ai_relevant)).getD false)
              (recencyBonus now c.connected_on)
              (decide (((summaries.find? (fun s => s.connection_id == c.id)).map
                  (fun s => s.total_engagements)).getD 0 > 0))
              (((summaries.find? (fun s => s.connection_id == c.id)).map
                  (fun s => s.status)).getD "unknown" == "active"))
    ∧ (∀ (now : Nat) (summaries : List Summary) (c : ConnRecord),
        calculateConnectionPriority now summaries c ≤ 100)
    ∧ (∀ now : Nat,
        calculateConnectionPriority now
          [{ connection_id := 7, ai_relevant := true, total_engagements := 1,
             status := "active" }]
          { id := 7, connected_on := some now, profile_text := "ai" } = 100)
    ∧ (∀ now : Nat,
        calculateConnectionPriority now []
          { id := 1, connected_on := none, profile_text := "" } = 0) := by
  refine ⟨?_, ?_, ?_, ?_⟩
  · intro now summaries c
    exact priorityFromSignals_eq_formula now _ c.connected_on
  · intro now summaries c
    unfold calculateConnectionPriority priorityFromSignals
    exact Nat.min_le_left _ _
  · intro now
    simp [calculateConnectionPriority, priorityFromSignals, recencyBonus,
      Nat.sub_self]
  · intro now
    simp [calculateConnectionPriority, priorityFromSignals, recencyBonus]

/-- Claim C5: on the spec scenario — usable budget 10, 15 connections whose
computed priorities are [90, 90, 50, ...], each connection sync costing two
calls — draining processes exactly five connections, the two priority-90
connections first in stable tie-break order and then three more by
descending priority, and stops with apiCallsUsed = 10 (within [9,10]).
The final part of the claim fails: the run then marks the session
completed and returns success instead of leaving the session paused, which
is the divergence recorded for this claim. -/
theorem claim_c5_drain_scenario :
    (run c5Env c5State).1.queue.map (fun q => (q.connection_id, q.priority))
      = [(1, 90), (2, 90), (3, 50), (4, 50), (5, 50), (6, 50), (7, 50), (8, 50),
         (9, 50), (10, 50), (11, 50), (12, 50), (13, 50), (14, 50), (15, 50)] ∧
    (run c5Env c5State).1.sessionSynced = 5 ∧
    (run c5Env c5State).1.completedOrder = [1, 2, 3, 4, 5] ∧
    (run c5Env c5State).1.apiCallsUsed = 10 ∧
    ((run c5Env c5State).1.queue.filter (fun q => q.status == "pending")).map
      (fun q => q.connection_id) = [6, 7, 8, 9, 10, 11, 12, 13, 14, 15] ∧
    (run c5Env c5State).1.sessionStatus = "completed" ∧
    ¬ (run c5Env c5State).1.sessionStatus = "paused" := by
  decide

/-- Claim C1: when the budget is exhausted while queue items are still
pending, the drain does stop and no exception is raised, but the session is
not left paused: the run unconditionally invokes the insight calculator and
marks the session completed.  Here the budget (6) runs out after three of
four connections; connection 4 stays pending, yet the insight rows are
written, the session status is completed and the run returns success —
the divergence recorded for this claim. -/
theorem claim_c1_exhaustion_not_paused :
    (run c1Env c1State).1.apiCallsUsed = 6 ∧
    canAfford (run c1Env c1State).1 2 = false ∧
    ((run c1Env c1State).1.queue.filter (fun q => q.status == "pending")).map
      (fun q => q.connection_id) = [4] ∧
    (run c1Env c1State).1.insights.length = 3 ∧
    (run c1Env c1State).1.sessionStatus = "completed" ∧
    ¬ (run c1Env c1State).1.sessionStatus = "paused" ∧
    (run c1Env c1State).2 = Except.ok
      { success := true, apiCallsUsed := 6, remaining := 0 } := by
  refine ⟨by decide, by decide, by decide, by decide, by decide, by decide, rfl⟩

/-- Claim C2 fails on the code: initialize first restores apiCallsUsed from
the paused session (5) but then unconditionally overwrites it with
db.getTodayApiCallCount (7), so the restored counter is 7, not the
persisted 5. -/
theorem claim_c2_counterexample :
    c2Env.existingSession = some { session_date := "2025-10-08", status := "paused",
                                   api_calls_used := 5, api_calls_limit := 450 } ∧
    (initEngine c2Env baseState).apiCallsUsed = 7 ∧
    ¬ (initEngine c2Env baseState).apiCallsUsed = 5 := by
  decide

/-- Claim C2 as amended: after initialize resumes a paused session, the
in-memory apiCallsUsed equals the count of api_calls rows recorded today
(db.getTodayApiCallCount), not the api_calls_used value persisted on the
session; the two agree only when that count happens to equal the persisted
value. -/
theorem claim_c2_amended (env : RunEnv) (st : SyncState) (s : Session)
    (_h1 : env.existingSession = some s) (_h2 : s.status = "paused") :
    (initEngine env st).apiCallsUsed = env.todayApiCallCount := by
  rfl

/-- Witness for the amended claim C2 at the counterexample environment. -/
theorem claim_c2_amended_witness :
    (initEngine c2Env baseState).apiCallsUsed = c2Env.todayApiCallCount :=
  claim_c2_amended c2Env baseState
    { session_date := "2025-10-08", status := "paused",
      api_calls_used := 5, api_calls_limit := 450 } rfl rfl

/-- Claim C7: a per-item sync failure is swallowed at the item level — the
batch and the run continue (item 2 is still processed and the drain returns
normally) — and the failed item is marked failed with attempts incremented
by exactly one and next_retry set to the failure time plus a flat 3600
seconds (1000 + 3600 = 4600).  Failing the same item again in a second run
at time 4600 yields attempts = 2 and next_retry = 4600 + 3600 = 8200,
computed from the second failure timestamp, not the first. -/
theorem claim_c7_item_failure_backoff :
    c7After1.queue.map (fun q => (q.id, q.status, q.attempts, q.next_retry, q.error_message))
      = [(1, "failed", 1, some 4600, some "socket hang up"),
         (2, "completed", 0, none, none)] ∧
    c7After1.sessionSynced = 1 ∧
    c7After1.completedOrder = [2] ∧
    c7After2.queue.map (fun q => (q.id, q.status, q.attempts, q.next_retry))
      = [(1, "failed", 2, some 8200), (2, "completed", 0, none)] := by
  decide



/-- The event-appending fold of processEngagementForConnection equals the
filter-and-map form. -/
theorem foldl_matched_events (env : RunEnv) (connId : Nat) (postId : String) :
    ∀ (evs : List Actor) (st : SyncState),
      evs.foldl
        (fun s ev =>
          if env.matchConn ev.actor connId then
            { s with events := s.events ++ [mkEngEvent env.now connId postId ev] }
          else s) st
      = appendMatchedEvents env st connId postId evs := by
  intro evs
  induction evs with
  | nil =>
    intro st
    simp [appendMatchedEvents]
  | cons a as ih =>
    intro st
    by_cases h : env.matchConn a.actor connId = true
    · rw [List.foldl_cons]
      simp only [h, if_true]
      rw [ih]
      simp [appendMatchedEvents, h, List.filter_cons_of_pos]
    · rw [List.foldl_cons, if_neg h, ih]
      simp only [appendMatchedEvents]
      rw [List.filter_cons_of_neg (by simp [h])]

/-- Closed form of processEngagementForConnection: when the connection row
exists, exactly the matched events are appended as EngagementEvent rows;
when it does not exist, the state is returned unchanged. -/
theorem processEngagementForConnection_eq (env : RunEnv) (st : SyncState)
    (connId : Nat) (postId : String) (evs : List Actor) :
    processEngagementForConnection env st connId postId evs
      = match env.connections.find? (fun c => c.id == connId) with
        | none => st
        | some _ => appendMatchedEvents env st connId postId evs := by
  unfold processEngagementForConnection
  cases env.connections.find? (fun c => c.id == connId) with
  | none => rfl
  | some c => exact foldl_matched_events env connId postId evs st

/-- The state component of fetchPostEngagement is always the request
recording, whatever the fetch outcome. -/
theorem fetchPostEngagement_fst (env : RunEnv) (st : SyncState) (pid : String) :
    (fetchPostEngagement env st pid).1 = recordExternalCall st "/rest/socialActions" := by
  unfold fetchPostEngagement
  cases env.engagementFetch pid <;> rfl

/-- processEngagementForConnection never touches the budget fields. -/
theorem processEngagement_budget (env : RunEnv) (st : SyncState)
    (connId : Nat) (postId : String) (evs : List Actor) :
    (processEngagementForConnection env st connId postId evs).apiCallsUsed = st.apiCallsUsed ∧
    (processEngagementForConnection env st connId postId evs).usableLimit = st.usableLimit ∧
    (processEngagementForConnection env st connId postId evs).budgetTrace = st.budgetTrace ∧
    (processEngagementForConnection env st connId postId evs).externalCalls = st.externalCalls := by
  rw [processEngagementForConnection_eq]
  cases env.connections.find? (fun c => c.id == connId) <;>
    exact ⟨rfl, rfl, rfl, rfl⟩

/-- Claim C8: for every engagement fetch result, only the events whose
actor matches the target connection (per the stored-identifier matcher) are
persisted as EngagementEvent rows, and when the connection row does not
exist the state is unchanged; in particular, when no returned actor matches
any stored identifier, no EngagementEvent row is created — and the
operation is total, so no error is raised in either case. -/
theorem claim_c8_matched_events_only (env : RunEnv) (st : SyncState)
    (connId : Nat) (postId : String) (evs : List Actor) :
    (processEngagementForConnection env st connId postId evs
      = match env.connections.find? (fun c => c.id == connId) with
        | none => st
        | some _ => appendMatchedEvents env st connId postId evs) ∧
    ((∀ ev ∈ evs, env.matchConn ev.actor connId = false) →
      (processEngagementForConnection env st connId postId evs).events = st.events) := by
  constructor
  · exact processEngagementForConnection_eq env st connId postId evs
  · intro hnone
    rw [processEngagementForConnection_eq]
    cases env.connections.find? (fun c => c.id == connId) with
    | none => rfl
    | some c =>
      have hfil : evs.filter (fun ev => env.matchConn ev.actor connId) = [] := by
        simp only [List.filter_eq_nil_iff]
        intro a ha
        simp [hnone a ha]
      simp [appendMatchedEvents, hfil]

/-- Witness for claim C8: with one stored connection, one unmatched actor
and a matcher that matches nothing, no EngagementEvent row is created. -/
theorem claim_c8_witness :
    (processEngagementForConnection c8Env baseState 1 "p1" c8Actors).events
      = baseState.events :=
  (claim_c8_matched_events_only c8Env baseState 1 "p1" c8Actors).2
    (by decide)

/-- Claim C9: the post-refresh step is best-effort.  When the budget does
not allow one call it is skipped entirely (the state, including the
external-call trace, is returned unchanged, so no external call is
performed); when the external posts fetch fails, the failure is swallowed —
the only change is the recorded request, no budget is consumed and no post
is saved.  The operation is total (it returns a state, never an Except), so
post refresh never raises and never aborts the run. -/
theorem claim_c9_post_refresh_best_effort (env : RunEnv) (st : SyncState) :
    (canAfford st 1 = false → syncRecentPosts env st = st) ∧
    (∀ e, env.postsFetch = Except.error e →
      syncRecentPosts env st
        = if canAfford st 1 then recordExternalCall st "/rest/posts" else st) := by
  constructor
  · intro h
    simp [syncRecentPosts, h]
  · intro e herr
    by_cases h : canAfford st 1
    · simp [syncRecentPosts, h, herr]
    · simp [syncRecentPosts, h]

/-- Witness for claim C9 at a fully consumed budget (skip branch) and at a
fresh budget with a failing posts endpoint (swallow branch). -/
theorem claim_c9_witness :
    syncRecentPosts baseEnv c9FullState = c9FullState ∧
    syncRecentPosts baseEnv baseState
      = if canAfford baseState 1 then recordExternalCall baseState "/rest/posts"
        else baseState :=
  ⟨(claim_c9_post_refresh_best_effort baseEnv c9FullState).1 (by decide),
   (claim_c9_post_refresh_best_effort baseEnv baseState).2
     "posts endpoint unavailable" rfl⟩

/-- Budget accounting of the per-post loop: starting from any state, the
loop consumes exactly one call per sampled post — as many posts as the
remaining budget allows — independently of the engagement fetch outcomes. -/
theorem syncPostsLoop_apiCalls (env : RunEnv) (connId : Nat) :
    ∀ (posts : List TrackedPost) (st : SyncState),
      (syncPostsLoop env connId posts st).apiCallsUsed
        = st.apiCallsUsed + min posts.length (st.usableLimit - st.apiCallsUsed) ∧
      (syncPostsLoop env connId posts st).usableLimit = st.usableLimit := by
  intro posts
  induction posts with
  | nil =>
    intro st
    simp [syncPostsLoop]
  | cons p ps ih =>
    intro st
    by_cases h : canAfford st 1 = true
    · have hle : st.apiCallsUsed + 1 ≤ st.usableLimit := by
        simpa [canAfford] using h
      have hstep :
          syncPostsLoop env connId (p :: ps) st
            = syncPostsLoop env connId ps
                (processEngagementForConnection env
                  (consumeAPI (fetchPostEngagement env st p.post_id).1 1)
                  connId p.post_id (fetchPostEngagement env st p.post_id).2) := by
        simp [syncPostsLoop, h]
      set st3 := processEngagementForConnection env
        (consumeAPI (fetchPostEngagement env st p.post_id).1 1)
        connId p.post_id (fetchPostEngagement env st p.post_id).2 with hst3
      have hused : st3.apiCallsUsed = st.apiCallsUsed + 1 := by
        rw [hst3, (processEngagement_budget _ _ _ _ _).1]
        rw [show (consumeAPI (fetchPostEngagement env st p.post_id).1 1).apiCallsUsed
              = (fetchPostEngagement env st p.post_id).1.apiCallsUsed + 1 from rfl]
        rw [fetchPostEngagement_fst]
        rfl
      have hlim : st3.usableLimit = st.usableLimit := by
        rw [hst3, (processEngagement_budget _ _ _ _ _).2.1]
        rw [show (consumeAPI (fetchPostEngagement env st p.post_id).1 1).usableLimit
              = (fetchPostEngagement env st p.post_id).1.usableLimit from rfl]
        rw [fetchPostEngagement_fst]
        rfl
      obtain ⟨ih1, ih2⟩ := ih st3
      constructor
      · rw [hstep, ih1, hused, hlim]
        simp only [List.length_cons]
        omega
      · rw [hstep, ih2, hlim]
    · have hgt : ¬ st.apiCallsUsed + 1 ≤ st.usableLimit := by
        simpa [canAfford] using h
      have hstop : syncPostsLoop env connId (p :: ps) st = st := by
        simp [syncPostsLoop, h]
      constructor
      · rw [hstop]
        simp only [List.length_cons]
        omega
      · rw [hstop]

/-- Claim C10: during a connection engagement sync, exactly one budget unit
is consumed per sampled tracked post — as many posts as the remaining
budget allows — for every possible engagement-fetch outcome function, so a
failed per-post fetch counts against the budget exactly like a successful
one; fetchPostEngagement maps any fetch error to the empty list instead of
throwing; and syncConnectionEngagement reports success exactly when the
summary update succeeds, independently of the fetch outcomes, so in
processQueue the item is marked completed rather than failed. -/
theorem claim_c10_per_post_budget_on_failure (env : RunEnv) (st : SyncState)
    (connId : Nat) :
    ((syncPostsLoop env connId (getTrackedPosts st.trackedPosts 5) st).apiCallsUsed
      = st.apiCallsUsed
        + min (getTrackedPosts st.trackedPosts 5).length
            (st.usableLimit - st.apiCallsUsed)) ∧
    (∀ postId e, env.engagementFetch postId = Except.error e →
       (fetchPostEngagement env st postId).2 = []) ∧
    ((syncConnectionEngagement env st connId).2 = Except.ok ()
       ↔ env.summaryUpdateOutcome connId = Except.ok ()) := by
  refine ⟨(syncPostsLoop_apiCalls env connId _ st).1, ?_, ?_⟩
  · intro postId e herr
    simp [fetchPostEngagement, herr]
  · unfold syncConnectionEngagement
    cases hout : env.summaryUpdateOutcome connId with
    | ok u => cases u; simp [hout]
    | error e => simp [hout]

/-- Witness for claim C10: two cached posts, an engagement endpoint that
always fails, budget 10 — the per-post consumption, the empty-list mapping
and the success of the connection sync are all evaluated concretely. -/
theorem claim_c10_witness :
    (fetchPostEngagement c10Env c5State "p1").2 = [] ∧
    (syncPostsLoop c10Env 1 (getTrackedPosts c5State.trackedPosts 5) c5State).apiCallsUsed
      = c5State.apiCallsUsed
        + min (getTrackedPosts c5State.trackedPosts 5).length
            (c5State.usableLimit - c5State.apiCallsUsed) ∧
    ((syncConnectionEngagement c10Env c5State 1).2 = Except.ok ()
      ↔ c10Env.summaryUpdateOutcome 1 = Except.ok ()) :=
  ⟨(claim_c10_per_post_budget_on_failure c10Env c5State 1).2.1 "p1" "timeout" rfl,
   (claim_c10_per_post_budget_on_failure c10Env c5State 1).1,
   (claim_c10_per_post_budget_on_failure c10Env c5State 1).2.2⟩

/-- Claim C6: every exception escaping orchestrator steps 2 through 6
(modelled as the injectable database failures of the relevance pass, the
queue rebuild and the insight computation; post-refresh and per-item
failures are swallowed earlier and cannot escape) leaves the session with
status paused, the exception message recorded and the current apiCallsUsed
persisted onto the session, and the exception is then returned to the
caller; so no failure of those steps leaves the session non-paused.  The
access-token hypothesis excludes the pre-try token check, which the source
raises before the try-block that owns the pause guarantee. -/
theorem claim_c6_run_failure_pauses (env : RunEnv) (st0 : SyncState)
    (e : String) (htok : env.hasAccessToken = true)
    (herr : (run env st0).2 = Except.error e) :
    (run env st0).1.sessionStatus = "paused" ∧
    (run env st0).1.sessionError = some e ∧
    (run env st0).1.sessionApiCalls = (run env st0).1.apiCallsUsed := by
  cases hm : env.markFail with
  | some e1 =>
    have hrun : run env st0
        = (pauseSessionUpdate env (syncRecentPosts env (initEngine env st0)) e1,
           Except.error e1) := by
      simp [run, htok, hm]
    rw [hrun] at herr ⊢
    simp only [Except.error.injEq] at herr
    subst herr
    exact ⟨rfl, rfl, rfl⟩
  | none =>
    cases hb : env.buildFail with
    | some e1 =>
      have hrun : run env st0
          = (pauseSessionUpdate env
               (markAIRelevantConnections env (syncRecentPosts env (initEngine env st0))) e1,
             Except.error e1) := by
        simp [run, htok, hm, hb]
      rw [hrun] at herr ⊢
      simp only [Except.error.injEq] at herr
      subst herr
      exact ⟨rfl, rfl, rfl⟩
    | none =>
      cases hi : env.insightsFail with
      | some e1 =>
        have hrun : run env st0
            = (pauseSessionUpdate env
                 (processQueue env (buildSyncQueue env
                   (markAIRelevantConnections env
                     (syncRecentPosts env (initEngine env st0))))) e1,
               Except.error e1) := by
          simp [run, htok, hm, hb, hi]
        rw [hrun] at herr ⊢
        simp only [Except.error.injEq] at herr
        subst herr
        exact ⟨rfl, rfl, rfl⟩
      | none =>
        exfalso
        have : (run env st0).2
            = Except.ok
                { success := true
                  apiCallsUsed := (calculateInsights env (processQueue env
                    (buildSyncQueue env (markAIRelevantConnections env
                      (syncRecentPosts env (initEngine env st0)))))).apiCallsUsed
                  remaining := ((calculateInsights env (processQueue env
                    (buildSyncQueue env (markAIRelevantConnections env
                      (syncRecentPosts env (initEngine env st0)))))).usableLimit : Int)
                    - ((calculateInsights env (processQueue env
                        (buildSyncQueue env (markAIRelevantConnections env
                          (syncRecentPosts env (initEngine env st0)))))).apiCallsUsed : Int) } := by
          simp [run, htok, hm, hb, hi]
        rw [this] at herr
        exact Except.noConfusion herr

/-- Witness for claim C6: with the relevance pass throwing, the run pauses
the session with the message and returns the error. -/
theorem claim_c6_witness :
    (run c6Env baseState).1.sessionStatus = "paused" ∧
    (run c6Env baseState).1.sessionError = some "db locked" ∧
    (run c6Env baseState).1.sessionApiCalls = (run c6Env baseState).1.apiCallsUsed :=
  claim_c6_run_failure_pauses c6Env baseState "db locked" rfl rfl

/-- budgetOK only reads the four budget fields, so equal fields transport it. -/
theorem budgetOK_transport {st st' : SyncState}
    (h1 : st'.apiCallsUsed = st.apiCallsUsed) (h2 : st'.usableLimit = st.usableLimit)
    (h3 : st'.budgetTrace = st.budgetTrace) (h4 : st'.externalCalls = st.externalCalls)
    (h : budgetOK st) : budgetOK st' := by
  obtain ⟨a, b, c⟩ := h
  refine ⟨?_, ?_, ?_⟩
  · rw [h1, h2]; exact a
  · rw [h3, h2]; exact b
  · rw [h4]; exact c

/-- A fold whose body leaves the budget fields alone leaves them alone. -/
theorem foldl_budget_preserved {α : Type} (g : SyncState → α → SyncState)
    (hg : ∀ s x, (g s x).apiCallsUsed = s.apiCallsUsed ∧ (g s x).usableLimit = s.usableLimit ∧
      (g s x).budgetTrace = s.budgetTrace ∧ (g s x).externalCalls = s.externalCalls) :
    ∀ (xs : List α) (s : SyncState),
      (xs.foldl g s).apiCallsUsed = s.apiCallsUsed ∧ (xs.foldl g s).usableLimit = s.usableLimit ∧
      (xs.foldl g s).budgetTrace = s.budgetTrace ∧ (xs.foldl g s).externalCalls = s.externalCalls := by
  intro xs
  induction xs with
  | nil => intro s; exact ⟨rfl, rfl, rfl, rfl⟩
  | cons a as ih =>
    intro s
    obtain ⟨i1, i2, i3, i4⟩ := ih (g s a)
    obtain ⟨j1, j2, j3, j4⟩ := hg s a
    simp only [List.foldl_cons]
    exact ⟨i1.trans j1, i2.trans j2, i3.trans j3, i4.trans j4⟩

/-- Consuming one call after an affirmative canAfford(1) check preserves
budget soundness. -/
theorem consumeAPI_one_budgetOK {st : SyncState}
    (hcan : canAfford st 1 = true) (h : budgetOK st) : budgetOK (consumeAPI st 1) := by
  obtain ⟨a, b, c⟩ := h
  have hle : st.apiCallsUsed + 1 ≤ st.usableLimit := by
    simpa [canAfford] using hcan
  refine ⟨hle, ?_, c⟩
  intro v hv
  rcases List.mem_append.mp hv with hv | hv
  · exact b v hv
  · rw [List.mem_singleton] at hv
    subst hv
    exact hle

/-- Recording an external request issued under an affirmative canAfford(1)
check preserves budget soundness. -/
theorem recordExternalCall_budgetOK {st : SyncState} (ep : String)
    (hcan : canAfford st 1 = true) (h : budgetOK st) :
    budgetOK (recordExternalCall st ep) := by
  obtain ⟨a, b, c⟩ := h
  refine ⟨a, b, ?_⟩
  intro p hp
  rcases List.mem_append.mp hp with hp | hp
  · exact c p hp
  · rw [List.mem_singleton] at hp
    subst hp
    exact hcan

/-- The per-post loop preserves budget soundness. -/
theorem syncPostsLoop_budgetOK (env : RunEnv) (connId : Nat) :
    ∀ (posts : List TrackedPost) (st : SyncState),
      budgetOK st → budgetOK (syncPostsLoop env connId posts st) := by
  intro posts
  induction posts with
  | nil =>
    intro st h
    simpa [syncPostsLoop] using h
  | cons p ps ih =>
    intro st h
    by_cases hc : canAfford st 1 = true
    · have hstep :
          syncPostsLoop env connId (p :: ps) st
            = syncPostsLoop env connId ps
                (processEngagementForConnection env
                  (consumeAPI (fetchPostEngagement env st p.post_id).1 1)
                  connId p.post_id (fetchPostEngagement env st p.post_id).2) := by
        simp [syncPostsLoop, hc]
      rw [hstep]
      apply ih
      have hfr := fetchPostEngagement_fst env st p.post_id
      have h1 : budgetOK (fetchPostEngagement env st p.post_id).1 := by
        rw [hfr]
        exact recordExternalCall_budgetOK _ hc h
      have hc1 : canAfford (fetchPostEngagement env st p.post_id).1 1 = true := by
        rw [hfr]
        exact hc
      have h2 : budgetOK (consumeAPI (fetchPostEngagement env st p.post_id).1 1) :=
        consumeAPI_one_budgetOK hc1 h1
      obtain ⟨e1, e2, e3, e4⟩ := processEngagement_budget env
        (consumeAPI (fetchPostEngagement env st p.post_id).1 1)
        connId p.post_id (fetchPostEngagement env st p.post_id).2
      exact budgetOK_transport e1 e2 e3 e4 h2
    · have hstop : syncPostsLoop env connId (p :: ps) st = st := by
        simp [syncPostsLoop, hc]
      rw [hstop]
      exact h

/-- syncConnectionEngagement preserves budget soundness and the limit. -/
theorem syncConnectionEngagement_budgetOK (env : RunEnv) (st : SyncState)
    (connId : Nat) (h : budgetOK st) :
    budgetOK (syncConnectionEngagement env st connId).1 ∧
    (syncConnectionEngagement env st connId).1.usableLimit = st.usableLimit := by
  have hok := syncPostsLoop_budgetOK env connId (getTrackedPosts st.trackedPosts 5) st h
  have hlim := (syncPostsLoop_apiCalls env connId (getTrackedPosts st.trackedPosts 5) st).2
  unfold syncConnectionEngagement
  cases hout : env.summaryUpdateOutcome connId with
  | ok u =>
    constructor
    · exact budgetOK_transport rfl rfl rfl rfl hok
    · exact hlim
  | error e =>
    exact ⟨hok, hlim⟩

/-- The batch loop preserves budget soundness and the limit. -/
theorem processBatchItems_budgetOK (env : RunEnv) :
    ∀ (items : List QueueItem) (st : SyncState) (n : Nat), budgetOK st →
      budgetOK (processBatchItems env items st n).1 ∧
      (processBatchItems env items st n).1.usableLimit = st.usableLimit := by
  intro items
  induction items with
  | nil =>
    intro st n h
    exact ⟨h, rfl⟩
  | cons item rest ih =>
    intro st n h
    by_cases hc : canAfford st 2 = true
    · cases hsync : syncConnectionEngagement env st item.connection_id with
      | mk st1 out =>
        have hsb := syncConnectionEngagement_budgetOK env st item.connection_id h
        rw [hsync] at hsb
        cases out with
        | ok u =>
          have hstep : processBatchItems env (item :: rest) st n
              = processBatchItems env rest (updateQueueItemCompleted st1 item env.now) (n + 1) := by
            simp [processBatchItems, hc, hsync]
          rw [hstep]
          have hok1 : budgetOK (updateQueueItemCompleted st1 item env.now) :=
            budgetOK_transport rfl rfl rfl rfl hsb.1
          obtain ⟨r1, r2⟩ := ih (updateQueueItemCompleted st1 item env.now) (n + 1) hok1
          refine ⟨r1, ?_⟩
          rw [r2]
          exact hsb.2
        | error e =>
          have hstep : processBatchItems env (item :: rest) st n
              = processBatchItems env rest (updateQueueItemFailed st1 item e env.now) n := by
            simp [processBatchItems, hc, hsync]
          rw [hstep]
          have hok1 : budgetOK (updateQueueItemFailed st1 item e env.now) :=
            budgetOK_transport rfl rfl rfl rfl hsb.1
          obtain ⟨r1, r2⟩ := ih (updateQueueItemFailed st1 item e env.now) n hok1
          refine ⟨r1, ?_⟩
          rw [r2]
          exact hsb.2
    · have hstep : processBatchItems env (item :: rest) st n = (st, n, false) := by
        simp [processBatchItems, hc]
      rw [hstep]
      exact ⟨h, rfl⟩

/-- The drain loop preserves budget soundness and the limit. -/
theorem processQueueLoop_budgetOK (env : RunEnv) :
    ∀ (fuel : Nat) (st : SyncState) (n : Nat), budgetOK st →
      budgetOK (processQueueLoop env fuel st n).1 ∧
      (processQueueLoop env fuel st n).1.usableLimit = st.usableLimit := by
  intro fuel
  induction fuel with
  | zero =>
    intro st n h
    exact ⟨h, rfl⟩
  | succ fuel ih =>
    intro st n h
    by_cases hc : canAfford st 5 = true
    · by_cases hb : (getNextSyncBatch st.queue env.now st.batchSize).isEmpty = true
      · have hstep : processQueueLoop env (fuel + 1) st n = (st, n) := by
          simp [processQueueLoop, hc, hb]
        rw [hstep]
        exact ⟨h, rfl⟩
      · cases hpb : processBatchItems env (getNextSyncBatch st.queue env.now st.batchSize) st n with
        | mk st1 pr =>
          cases pr with
          | mk n1 more =>
            have hbb := processBatchItems_budgetOK env
              (getNextSyncBatch st.queue env.now st.batchSize) st n h
            rw [hpb] at hbb
            cases more with
            | true =>
              have hstep : processQueueLoop env (fuel + 1) st n
                  = processQueueLoop env fuel st1 n1 := by
                simp [processQueueLoop, hc, hb, hpb]
              rw [hstep]
              obtain ⟨r1, r2⟩ := ih st1 n1 hbb.1
              refine ⟨r1, ?_⟩
              rw [r2]
              exact hbb.2
            | false =>
              have hstep : processQueueLoop env (fuel + 1) st n = (st1, n1) := by
                simp [processQueueLoop, hc, hb, hpb]
              rw [hstep]
              exact hbb
    · have hstep : processQueueLoop env (fuel + 1) st n = (st, n) := by
        simp [processQueueLoop, hc]
      rw [hstep]
      exact ⟨h, rfl⟩

/-- processQueue preserves budget soundness and the limit. -/
theorem processQueue_budgetOK (env : RunEnv) (st : SyncState) (h : budgetOK st) :
    budgetOK (processQueue env st) ∧
    (processQueue env st).usableLimit = st.usableLimit := by
  unfold processQueue
  cases hpl : processQueueLoop env (st.queue.length + 1) st 0 with
  | mk st1 n1 =>
    have hlb := processQueueLoop_budgetOK env (st.queue.length + 1) st 0 h
    rw [hpl] at hlb
    exact ⟨budgetOK_transport rfl rfl rfl rfl hlb.1, hlb.2⟩

/-- syncRecentPosts preserves budget soundness and the limit. -/
theorem syncRecentPosts_budgetOK (env : RunEnv) (st : SyncState) (h : budgetOK st) :
    budgetOK (syncRecentPosts env st) ∧
    (syncRecentPosts env st).usableLimit = st.usableLimit := by
  by_cases hc : canAfford st 1 = true
  · cases hp : env.postsFetch with
    | error e =>
      have hstep : syncRecentPosts env st = recordExternalCall st "/rest/posts" := by
        simp [syncRecentPosts, hc, hp]
      rw [hstep]
      exact ⟨recordExternalCall_budgetOK _ hc h, rfl⟩
    | ok posts =>
      have hstep : syncRecentPosts env st
          = posts.foldl
              (fun s post =>
                let tp : TrackedPost :=
                  { post_id := post.id,
                    posted_at := jsOrDefault post.created env.now,
                    sync_priority := calculatePostPriority env.now post }
                { s with trackedPosts := saveTrackedPost s.trackedPosts tp })
              (consumeAPI (recordExternalCall st "/rest/posts") 1) := by
        simp [syncRecentPosts, hc, hp]
      have h1 : budgetOK (recordExternalCall st "/rest/posts") :=
        recordExternalCall_budgetOK _ hc h
      have h2 : budgetOK (consumeAPI (recordExternalCall st "/rest/posts") 1) :=
        consumeAPI_one_budgetOK hc h1
      obtain ⟨f1, f2, f3, f4⟩ := foldl_budget_preserved
        (fun s post =>
          let tp : TrackedPost :=
            { post_id := post.id,
              posted_at := jsOrDefault post.created env.now,
              sync_priority := calculatePostPriority env.now post }
          { s with trackedPosts := saveTrackedPost s.trackedPosts tp })
        (fun s x => ⟨rfl, rfl, rfl, rfl⟩) posts
        (consumeAPI (recordExternalCall st "/rest/posts") 1)
      rw [hstep]
      exact ⟨budgetOK_transport f1 f2 f3 f4 h2, f2⟩
  · have hstep : syncRecentPosts env st = st := by
      simp [syncRecentPosts, hc]
    rw [hstep]
    exact ⟨h, rfl⟩

/-- initEngine sets the counter to the count of api_calls rows recorded
today and leaves the limit and the traces unchanged. -/
theorem initEngine_budget (env : RunEnv) (st : SyncState) :
    (initEngine env st).apiCallsUsed = env.todayApiCallCount ∧
    (initEngine env st).usableLimit = st.usableLimit ∧
    (initEngine env st).budgetTrace = st.budgetTrace ∧
    (initEngine env st).externalCalls = st.externalCalls := by
  unfold initEngine
  cases env.existingSession with
  | none => exact ⟨rfl, rfl, rfl, rfl⟩
  | some s =>
    cases hs : s.status == "paused" with
    | true => simp [hs]
    | false => simp [hs]

/-- buildSyncQueue leaves the budget fields unchanged. -/
theorem buildSyncQueue_budget (env : RunEnv) (st : SyncState) :
    (buildSyncQueue env st).apiCallsUsed = st.apiCallsUsed ∧
    (buildSyncQueue env st).usableLimit = st.usableLimit ∧
    (buildSyncQueue env st).budgetTrace = st.budgetTrace ∧
    (buildSyncQueue env st).externalCalls = st.externalCalls := by
  unfold buildSyncQueue
  exact foldl_budget_preserved
    (fun s c =>
      let p := calculateConnectionPriority env.now s.summaries c
      { s with queue := addToSyncQueue s.queue c.id p env.now })
    (fun s x => ⟨rfl, rfl, rfl, rfl⟩) (env.connections.take 10000) st

/-- Claim C3: every external call site checks canAfford immediately before
issuing the call (the external-call trace records the guard value at issue
time, and it is always true) and records the call afterwards through
consumeAPI; consequently, whenever the counter starts at or below the
usable limit (the engine starts a run from the count of api_calls rows
recorded today), apiCallsUsed never exceeds usableLimit at any point of the
run — the final value and every intermediate value in the budget trace stay
within the limit. -/
theorem claim_c3_budget_invariant (env : RunEnv) (st0 : SyncState)
    (h0 : st0.budgetTrace = []) (h1 : st0.externalCalls = [])
    (h2 : env.todayApiCallCount ≤ st0.usableLimit) :
    (run env st0).1.usableLimit = st0.usableLimit ∧
    (run env st0).1.apiCallsUsed ≤ st0.usableLimit ∧
    (∀ v ∈ (run env st0).1.budgetTrace, v ≤ st0.usableLimit) ∧
    (∀ c ∈ (run env st0).1.externalCalls, c.2 = true) := by
  obtain ⟨e1, e2, e3, e4⟩ := initEngine_budget env st0
  have hinit : budgetOK (initEngine env st0) := by
    refine ⟨?_, ?_, ?_⟩
    · rw [e1, e2]
      exact h2
    · rw [e3, e2, h0]
      intro v hv
      exact absurd hv (List.not_mem_nil v)
    · rw [e4, h1]
      intro c hc
      exact absurd hc (List.not_mem_nil c)
  have hB := syncRecentPosts_budgetOK env (initEngine env st0) hinit
  have hBlim : (syncRecentPosts env (initEngine env st0)).usableLimit = st0.usableLimit := by
    rw [hB.2, e2]
  have hC : budgetOK
      (markAIRelevantConnections env (syncRecentPosts env (initEngine env st0))) :=
    budgetOK_transport rfl rfl rfl rfl hB.1
  have hClim : (markAIRelevantConnections env
      (syncRecentPosts env (initEngine env st0))).usableLimit = st0.usableLimit := hBlim
  obtain ⟨d1, d2, d3, d4⟩ := buildSyncQueue_budget env
    (markAIRelevantConnections env (syncRecentPosts env (initEngine env st0)))
  have hD : budgetOK (buildSyncQueue env
      (markAIRelevantConnections env (syncRecentPosts env (initEngine env st0)))) :=
    budgetOK_transport d1 d2 d3 d4 hC
  have hDlim : (buildSyncQueue env (markAIRelevantConnections env
      (syncRecentPosts env (initEngine env st0)))).usableLimit = st0.usableLimit := by
    rw [d2]
    exact hClim
  have hE := processQueue_budgetOK env (buildSyncQueue env
    (markAIRelevantConnections env (syncRecentPosts env (initEngine env st0)))) hD
  have hElim : (processQueue env (buildSyncQueue env (markAIRelevantConnections env
      (syncRecentPosts env (initEngine env st0))))).usableLimit = st0.usableLimit := by
    rw [hE.2]
    exact hDlim
  have hF : budgetOK (calculateInsights env (processQueue env (buildSyncQueue env
      (markAIRelevantConnections env (syncRecentPosts env (initEngine env st0)))))) :=
    budgetOK_transport rfl rfl rfl rfl hE.1
  have hFlim : (calculateInsights env (processQueue env (buildSyncQueue env
      (markAIRelevantConnections env (syncRecentPosts env
        (initEngine env st0)))))).usableLimit = st0.usableLimit := hElim
  have main : budgetOK (run env st0).1 ∧ (run env st0).1.usableLimit = st0.usableLimit := by
    cases htok : env.hasAccessToken with
    | false =>
      have hrun : run env st0 = (initEngine env st0, Except.error "No access token found") := by
        simp [run, htok]
      rw [hrun]
      exact ⟨hinit, e2⟩
    | true =>
      cases hm : env.markFail with
      | some e0 =>
        have hrun : run env st0
            = (pauseSessionUpdate env (syncRecentPosts env (initEngine env st0)) e0,
               Except.error e0) := by
          simp [run, htok, hm]
        rw [hrun]
        exact ⟨budgetOK_transport rfl rfl rfl rfl hB.1, hBlim⟩
      | none =>
        cases hb : env.buildFail with
        | some e0 =>
          have hrun : run env st0
              = (pauseSessionUpdate env
                   (markAIRelevantConnections env
                     (syncRecentPosts env (initEngine env st0))) e0,
                 Except.error e0) := by
            simp [run, htok, hm, hb]
          rw [hrun]
          exact ⟨budgetOK_transport rfl rfl rfl rfl hC, hClim⟩
        | none =>
          cases hi : env.insightsFail with
          | some e0 =>
            have hrun : run env st0
                = (pauseSessionUpdate env
                     (processQueue env (buildSyncQueue env
                       (markAIRelevantConnections env
                         (syncRecentPosts env (initEngine env st0))))) e0,
                   Except.error e0) := by
              simp [run, htok, hm, hb, hi]
            rw [hrun]
            exact ⟨budgetOK_transport rfl rfl rfl rfl hE.1, hElim⟩
          | none =>
            have hfst : (run env st0).1
                = { calculateInsights env (processQueue env (buildSyncQueue env
                      (markAIRelevantConnections env
                        (syncRecentPosts env (initEngine env st0))))) with
                    sessionStatus := "completed"
                    sessionApiCalls := (calculateInsights env (processQueue env
                      (buildSyncQueue env (markAIRelevantConnections env
                        (syncRecentPosts env (initEngine env st0)))))).apiCallsUsed
                    completedAt := some env.now } := by
              simp [run, htok, hm, hb, hi]
            rw [hfst]
            exact ⟨budgetOK_transport rfl rfl rfl rfl hF, hFlim⟩
  obtain ⟨⟨m1, m2, m3⟩, mlim⟩ := main
  refine ⟨mlim, ?_, ?_, m3⟩
  · rw [← mlim]
    exact m1
  · intro v hv
    rw [← mlim]
    exact m2 v hv

/-- Witness for claim C3 at the concrete drain scenario: empty traces, a
zero starting count, limit 10. -/
theorem claim_c3_witness :
    (run c5Env c5State).1.usableLimit = c5State.usableLimit ∧
    (run c5Env c5State).1.apiCallsUsed ≤ c5State.usableLimit ∧
    (∀ v ∈ (run c5Env c5State).1.budgetTrace, v ≤ c5State.usableLimit) ∧
    (∀ c ∈ (run c5Env c5State).1.externalCalls, c.2 = true) :=
  claim_c3_budget_invariant c5Env c5State rfl rfl (by decide)
